import Mathlib

/-!
Verification of `computeSales.py`: a program that joins a product price
catalogue with a sales record, both JSON lists, and computes the total
sales amount.  Python values decoded from JSON are embedded as `JValue`;
Python floats are modelled as rationals (no claim here depends on
binary-float rounding).  Python dictionaries are modelled as functions
`String → Option ℚ`.
-/

/-- A JSON value as decoded by Python's `json.load`: `null` becomes `None`,
numbers become `int` or `float`, and objects become `dict`s. -/
inductive JValue where
  | null : JValue
  | bool : Bool → JValue
  | int : Int → JValue
  | float : ℚ → JValue
  | str : String → JValue
  | list : List JValue → JValue
  | obj : List (String × JValue) → JValue

/-- Python's `dict.get`: look a key up in an object's field list, the last
binding winning (as `json.load` resolves duplicate keys), `none` when the
key is absent (Python `None`). -/
def getField : List (String × JValue) → String → Option JValue
  | [], _ => none
  | (k, v) :: rest, key =>
      match getField rest key with
      | some w => some w
      | none => if k = key then some v else none

/-- Python's `isinstance(x, str)` on the result of a `.get` (missing field
gives `None`, which is not a `str`). -/
def pyIsInstStr : Option JValue → Bool
  | some (.str _) => true
  | _ => false

/-- Python's `isinstance(x, int)`.  `bool` is a subclass of `int` in
Python, so booleans pass this check. -/
def pyIsInstInt : Option JValue → Bool
  | some (.int _) => true
  | some (.bool _) => true
  | _ => false

/-- Python's `isinstance(x, (int, float))`.  Booleans pass, being `int`s. -/
def pyIsInstNum : Option JValue → Bool
  | some (.int _) => true
  | some (.bool _) => true
  | some (.float _) => true
  | _ => false

/-- Python's `float(x)` on a value that passed `isinstance(x, (int, float))`:
`True` converts to `1.0`, `False` to `0.0`.  Other cases are unreachable
under the guard and map to `0`. -/
def pyFloatQ : Option JValue → ℚ
  | some (.int n) => (n : ℚ)
  | some (.bool b) => if b then 1 else 0
  | some (.float q) => q
  | _ => 0

/-- The numeric value of a quantity that passed `isinstance(x, int)`:
an `int` is itself, `True` is `1`, `False` is `0`. -/
def pyIntQ : Option JValue → ℚ
  | some (.int n) => (n : ℚ)
  | some (.bool b) => if b then 1 else 0
  | _ => 0

/-- One iteration of the loop of `build_price_dictionary`
(`computeSales.py` lines 53-69): skip non-dict items, items without a
string `title`, and items whose `price` fails `isinstance(price, (int,float))`;
otherwise set `prices[title] = float(price)`. -/
def catStep (prices : String → Option ℚ) (item : JValue) : String → Option ℚ :=
  match item with
  | .obj fields =>
      match getField fields "title" with
      | some (.str title) =>
          if pyIsInstNum (getField fields "price") then
            fun k => if k = title then some (pyFloatQ (getField fields "price")) else prices k
          else prices
      | _ => prices
  | _ => prices

/-- `build_price_dictionary` (`computeSales.py` lines 46-71): fold the
catalogue into a price mapping, starting from the empty dict. -/
def build_price_dictionary (catalogue : List JValue) : String → Option ℚ :=
  catalogue.foldl catStep (fun _ => none)

/-- One iteration of the loop of `compute_total_sales`
(`computeSales.py` lines 81-103): skip non-dict rows, rows without a
string `Product`, rows whose `Quantity` fails `isinstance(quantity, int)`,
and rows whose product is not in the price dict; otherwise add
`prices[product] * quantity` to the running total. -/
def saleStep (prices : String → Option ℚ) (total : ℚ) (sale : JValue) : ℚ :=
  match sale with
  | .obj fields =>
      match getField fields "Product" with
      | some (.str product) =>
          if pyIsInstInt (getField fields "Quantity") then
            match prices product with
            | some unit_price => total + unit_price * pyIntQ (getField fields "Quantity")
            | none => total
          else total
      | _ => total
  | _ => total

/-- `compute_total_sales` (`computeSales.py` lines 74-105): fold the sales
list with `saleStep`, starting from `total = 0.0`. -/
def compute_total_sales (sales : List JValue) (prices : String → Option ℚ) : ℚ :=
  sales.foldl (saleStep prices) 0

/-- A sale row is valid and matched when it is a dict with a string
`Product`, a `Quantity` passing the integer check, and a product present
in the price mapping — exactly the rows on which `saleStep` adds to the
total. -/
def rowIsValidMatched (prices : String → Option ℚ) (sale : JValue) : Bool :=
  match sale with
  | .obj fields =>
      match getField fields "Product" with
      | some (.str product) =>
          pyIsInstInt (getField fields "Quantity") && (prices product).isSome
      | _ => false
  | _ => false

/-- The amount a single sale row contributes to the total: the row's
unit price times its quantity when valid and matched, otherwise `0`. -/
def rowContribution (prices : String → Option ℚ) (sale : JValue) : ℚ :=
  match sale with
  | .obj fields =>
      match getField fields "Product" with
      | some (.str product) =>
          if pyIsInstInt (getField fields "Quantity") then
            match prices product with
            | some unit_price => unit_price * pyIntQ (getField fields "Quantity")
            | none => 0
          else 0
      | _ => 0
  | _ => 0

/-- A catalogue entry passes all three checks of `build_price_dictionary`:
it is a dict with a string `title` and a `price` passing
`isinstance(price, (int, float))`. -/
def isValidEntry (item : JValue) : Bool :=
  match item with
  | .obj fields =>
      pyIsInstStr (getField fields "title") && pyIsInstNum (getField fields "price")
  | _ => false

/-- A catalogue entry is valid and carries exactly the title `t`. -/
def isValidEntryFor (t : String) (item : JValue) : Bool :=
  match item with
  | .obj fields =>
      (match getField fields "title" with
       | some (.str title) => title = t
       | _ => false)
      && pyIsInstNum (getField fields "price")
  | _ => false

/-- The price a valid catalogue entry would store: `float(price)`. -/
def entryPriceQ (item : JValue) : ℚ :=
  match item with
  | .obj fields => pyFloatQ (getField fields "price")
  | _ => 0

/-- The outcome of reading a file in `load_json_file`: the file is absent,
its content is not valid JSON, or it parses to a value. -/
inductive FileContent where
  | missing : FileContent
  | invalid : FileContent
  | parsed : JValue → FileContent

/-- `load_json_file` (`computeSales.py` lines 29-43) over an abstract file
system `fs`: return the parsed value, or terminate the process with one
diagnostic (`sys.exit(1)`, modelled as `Except.error` carrying the
message). -/
def load_json_file (fs : String → FileContent) (filename : String) :
    Except String JValue :=
  match fs filename with
  | .parsed v => .ok v
  | .missing => .error ("File not found: " ++ filename)
  | .invalid => .error ("Invalid JSON format in file: " ++ filename)

/-- The observable outcome of a run of `main`: either the process exits
with code 1 after printing a single diagnostic and before `save_results`
is reached, or the run completes, computes a total and writes the report
for the two named input files. -/
inductive MainOutcome where
  | fatalExit : String → MainOutcome
  | reportWritten : ℚ → String → String → MainOutcome

/-- `main` (`computeSales.py` lines 116-159) over the argument vector
`args` (`sys.argv`, program name included) and an abstract file system:
usage check, two loads, two top-level list checks, then the computation
and the report. -/
def main_run (args : List String) (fs : String → FileContent) : MainOutcome :=
  match args with
  | [_, catalogue_file, sales_file] =>
      match load_json_file fs catalogue_file with
      | .error d => .fatalExit d
      | .ok catalogue =>
          match load_json_file fs sales_file with
          | .error d => .fatalExit d
          | .ok sales =>
              match catalogue with
              | .list catItems =>
                  match sales with
                  | .list saleItems =>
                      .reportWritten
                        (compute_total_sales saleItems
                          (build_price_dictionary catItems))
                        catalogue_file sales_file
                  | _ => .fatalExit "Sales file must contain a list"
              | _ => .fatalExit "Catalogue file must contain a list"
  | _ =>
      .fatalExit
        "Usage: python computeSales.py priceCatalogue.json salesRecord.json"

/-- The process exit code of an outcome: `sys.exit(1)` on the fatal paths,
implicit `0` on completion. -/
def exitCode : MainOutcome → Nat
  | .fatalExit _ => 1
  | .reportWritten _ _ _ => 0

/-- The diagnostics printed on the fatal path before termination (row-level
skip diagnostics of a completed run are not part of the fatal path). -/
def fatalDiagnostics : MainOutcome → List String
  | .fatalExit d => [d]
  | .reportWritten _ _ _ => []

/-- Whether `save_results` was reached, i.e. `SalesResults.txt` was
created or overwritten. -/
def reportSaved : MainOutcome → Bool
  | .fatalExit _ => false
  | .reportWritten _ _ _ => true

/-- Python's `isinstance(x, list)` on a parsed top-level value. -/
def isListV : JValue → Bool
  | .list _ => true
  | _ => false

/-- The fatal conditions of the spec: wrong argument count (two positional
arguments, so three `argv` entries), a missing input file, syntactically
invalid JSON, or a top-level value of either input that is not a list. -/
def fatalCondition (args : List String) (fs : String → FileContent) : Prop :=
  args.length ≠ 3
  ∨ ∃ prog cf sf, args = [prog, cf, sf]
      ∧ (fs cf = .missing ∨ fs cf = .invalid
         ∨ (∃ v, fs cf = .parsed v ∧ isListV v = false)
         ∨ fs sf = .missing ∨ fs sf = .invalid
         ∨ (∃ w, fs sf = .parsed w ∧ isListV w = false))

/-- The catalogue of the spec's concrete scenario:
`[{"title":"Widget","price":2.5},{"title":"Gadget","price":10}]`. -/
def exampleCatalogue : List JValue :=
  [.obj [("title", .str "Widget"), ("price", .float (5 / 2))],
   .obj [("title", .str "Gadget"), ("price", .int 10)]]

/-- The sales list of the spec's concrete scenario:
`[{"Product":"Widget","Quantity":4},{"Product":"Gizmo","Quantity":1},{"Product":"Gadget","Quantity":2}]`. -/
def exampleSales : List JValue :=
  [.obj [("Product", .str "Widget"), ("Quantity", .int 4)],
   .obj [("Product", .str "Gizmo"), ("Quantity", .int 1)],
   .obj [("Product", .str "Gadget"), ("Quantity", .int 2)]]

/-- A price mapping holding only `Widget` at `2.5`. -/
def widgetPrices : String → Option ℚ :=
  fun k => if k = "Widget" then some (5 / 2) else none

/-- A sale row for `Widget` with the valid integer quantity `-1`. -/
def negQtySale : JValue :=
  .obj [("Product", .str "Widget"), ("Quantity", .int (-1))]

/-- A price value is text or JSON null (Python `None`): one of the shapes
the spec's design notes single out as non-numeric. -/
def priceIsTextOrNull : Option JValue → Bool
  | some (.str _) => true
  | some .null => true
  | _ => false

/-- A catalogue with two valid entries for the same title `Widget`,
prices `1` then `2`. -/
def dupCatalogue : List JValue :=
  [.obj [("title", .str "Widget"), ("price", .int 1)],
   .obj [("title", .str "Widget"), ("price", .int 2)]]

/-- A catalogue whose single entry has the boolean price `true`. -/
def boolPriceCatalogue : List JValue :=
  [.obj [("title", .str "B"), ("price", .bool true)]]

/-- A catalogue entry for `Widget` whose price is the text `"oops"`. -/
def badDupItem : JValue :=
  .obj [("title", .str "Widget"), ("price", .str "oops")]

/-- A sale row whose quantity is the numerically whole float `5.0`. -/
def floatQtyFields : List (String × JValue) :=
  [("Product", .str "Widget"), ("Quantity", .float 5)]

/-- A sale row for `Widget` with the valid positive quantity `4`. -/
def posQtySale : JValue :=
  .obj [("Product", .str "Widget"), ("Quantity", .int 4)]

/-- A sales list with no valid matched row: a non-dict element and a row
whose product is not in `widgetPrices`. -/
def badSales : List JValue :=
  [.null, .obj [("Product", .str "Gizmo"), ("Quantity", .int 1)]]

/-- A file system on which every file is absent. -/
def emptyFS : String → FileContent := fun _ => .missing

/-- A file system on which every file parses to the empty JSON list. -/
def goodFS : String → FileContent := fun _ => .parsed (.list [])

/-- Each loop iteration of `compute_total_sales` adds exactly the row's
contribution (which is `0` on every skipped or unmatched row). -/
lemma saleStep_eq (prices : String → Option ℚ) (total : ℚ) (sale : JValue) :
    saleStep prices total sale = total + rowContribution prices sale := by
  cases sale <;> simp [saleStep, rowContribution]
  rename_i fields
  rcases h : getField fields "Product" with _ | v
  · simp [h]
  · cases v <;> simp [h]
    rename_i p
    by_cases hq : pyIsInstInt (getField fields "Quantity")
    · rcases hp : prices p with _ | up <;> simp [hq, hp]
    · simp [hq]

/-- A row that is not valid and matched contributes `0`. -/
lemma rowContribution_eq_zero (prices : String → Option ℚ) (sale : JValue)
    (h : rowIsValidMatched prices sale = false) :
    rowContribution prices sale = 0 := by
  cases sale <;> simp [rowContribution]
  rename_i fields
  rcases hP : getField fields "Product" with _ | v
  · simp [hP]
  · cases v <;> simp [hP]
    rename_i p
    by_cases hq : pyIsInstInt (getField fields "Quantity")
    · rcases hp : prices p with _ | up <;> simp [hq, hp]
      simp [rowIsValidMatched, hP, hq, hp] at h
    · simp [hq]

/-- The fold of `compute_total_sales` equals the initial value plus the sum
of the row contributions. -/
lemma foldl_saleStep_eq (prices : String → Option ℚ) (sales : List JValue)
    (init : ℚ) :
    sales.foldl (saleStep prices) init
      = init + (sales.map (rowContribution prices)).sum := by
  induction sales generalizing init with
  | nil => simp
  | cons s rest ih => simp [List.foldl_cons, saleStep_eq, ih, add_assoc]

/-- One catalogue iteration, observed at a title `t`: a valid entry for `t`
stores its converted price, anything else leaves the lookup at `t`
unchanged. -/
lemma catStep_lookup (prices : String → Option ℚ) (item : JValue)
    (t : String) :
    catStep prices item t
      = if isValidEntryFor t item then some (entryPriceQ item)
        else prices t := by
  cases item <;> simp [catStep, isValidEntryFor, entryPriceQ]
  rename_i fields
  rcases h : getField fields "title" with _ | v
  · simp [h]
  · cases v <;> simp [h]
    rename_i title
    by_cases hp : pyIsInstNum (getField fields "price")
    · by_cases ht : t = title
      · subst ht
        simp [hp]
      · simp [hp, ht, Ne.symm ht]
    · simp [hp]

/-- A catalogue entry failing any of the three checks leaves the whole
price mapping unchanged (not just the lookup at one key). -/
lemma catStep_skip (prices : String → Option ℚ) (item : JValue)
    (h : isValidEntry item = false) :
    catStep prices item = prices := by
  cases item <;> simp [catStep]
  rename_i fields
  rcases hT : getField fields "title" with _ | v
  · simp [hT]
  · cases v <;> simp [hT]
    rename_i title
    by_cases hp : pyIsInstNum (getField fields "price")
    · simp [isValidEntry, hT, pyIsInstStr, hp] at h
    · simp [hp]

/-- The lookup of the built price dictionary at a title `t` is the
converted price of the last valid catalogue entry for `t`, `none` when
there is no such entry. -/
lemma bpd_lookup (c : List JValue) (t : String) :
    build_price_dictionary c t
      = ((c.filter (isValidEntryFor t)).getLast?).map entryPriceQ := by
  induction c using List.reverseRecOn with
  | nil => simp [build_price_dictionary]
  | append_singleton c a ih =>
      have hsplit : build_price_dictionary (c ++ [a])
          = catStep (build_price_dictionary c) a := by
        simp [build_price_dictionary, List.foldl_append]
      rw [hsplit, catStep_lookup]
      by_cases h : isValidEntryFor t a
      · simp [h, List.filter_append]
      · simp [h, List.filter_append, ih]

/-- C1: for every sales list and every price mapping,
`compute_total_sales` returns the sum over the rows of their
contributions, every invalid or unmatched row contributes exactly `0`,
and on the spec's concrete catalogue and sales the total is `30.00`. -/
theorem C1_total_is_sum_of_matched_rows (sales : List JValue)
    (prices : String → Option ℚ) :
    compute_total_sales sales prices
        = (sales.map (rowContribution prices)).sum
    ∧ (∀ sale, rowIsValidMatched prices sale = false →
        rowContribution prices sale = 0)
    ∧ compute_total_sales exampleSales (build_price_dictionary exampleCatalogue)
        = 30 := by
  refine ⟨?_, ?_, ?_⟩
  · simpa using foldl_saleStep_eq prices sales 0
  · exact fun sale h => rowContribution_eq_zero prices sale h
  · simp [compute_total_sales, saleStep, build_price_dictionary, catStep,
      getField, pyIsInstNum, pyIsInstInt, pyFloatQ, pyIntQ, exampleSales,
      exampleCatalogue]
    norm_num

/-- Witness for C1: the sum form on a concrete input, and a concrete
invalid row (a bare string) contributing `0`. -/
theorem C1_witness :
    compute_total_sales exampleSales widgetPrices
        = (exampleSales.map (rowContribution widgetPrices)).sum
    ∧ rowContribution widgetPrices (JValue.str "x") = 0 :=
  ⟨(C1_total_is_sum_of_matched_rows exampleSales widgetPrices).1,
   (C1_total_is_sum_of_matched_rows exampleSales widgetPrices).2.1
     (JValue.str "x") rfl⟩

/-- C2: when a catalogue holds two or more valid entries with the same
title, the built mapping sends that title to the price of the last such
entry in input order. -/
theorem C2_duplicate_titles_last_wins (c : List JValue) (t : String)
    (e : JValue)
    (hdup : 2 ≤ (c.filter (isValidEntryFor t)).length)
    (hlast : (c.filter (isValidEntryFor t)).getLast? = some e) :
    build_price_dictionary c t = some (entryPriceQ e) := by
  simp [bpd_lookup, hlast]

/-- Witness for C2: two valid `Widget` entries with prices `1` then `2`;
the mapping holds the last price `2`. -/
theorem C2_witness :
    build_price_dictionary dupCatalogue "Widget"
      = some (entryPriceQ
          (JValue.obj [("title", JValue.str "Widget"),
                       ("price", JValue.int 2)])) := by
  apply C2_duplicate_titles_last_wins
  · simp [dupCatalogue, isValidEntryFor, getField, pyIsInstNum]
  · simp [dupCatalogue, isValidEntryFor, getField, pyIsInstNum]

/-- Counterexample to C3: a catalogue entry with the boolean price `true`
is not skipped — `isinstance(price, (int, float))` accepts booleans
(`bool` subclasses `int`), so the title enters the mapping at `1.0`,
contradicting the claim that the title does not enter the mapping. -/
theorem C3_counterexample :
    build_price_dictionary boolPriceCatalogue "B" = some 1
    ∧ ¬ build_price_dictionary boolPriceCatalogue "B" = none := by
  constructor
  · simp [boolPriceCatalogue, build_price_dictionary, catStep, getField,
      pyIsInstNum, pyFloatQ]
  · simp [boolPriceCatalogue, build_price_dictionary, catStep, getField,
      pyIsInstNum, pyFloatQ]

/-- C3 (amended): a catalogue entry whose price is text or null is
skipped — the price mapping is left entirely unchanged — and with that
entry alone the title is absent from the mapping; boolean prices, by
contrast, pass the numeric check. -/
theorem C3_text_or_null_price_skipped (fields : List (String × JValue))
    (t : String)
    (ht : getField fields "title" = some (.str t))
    (hp : priceIsTextOrNull (getField fields "price") = true) :
    (∀ prices : String → Option ℚ, catStep prices (.obj fields) = prices)
    ∧ build_price_dictionary [.obj fields] t = none := by
  have hnum : pyIsInstNum (getField fields "price") = false := by
    rcases h : getField fields "price" with _ | v
    · rfl
    · rw [h] at hp
      cases v <;> simp_all [priceIsTextOrNull, pyIsInstNum]
  constructor
  · intro prices
    simp [catStep, ht, hnum]
  · simp [build_price_dictionary, catStep, ht, hnum]

/-- Witness for the amended C3: the text price `"oops"` on a `Widget`
entry leaves any mapping unchanged and alone builds an empty mapping. -/
theorem C3_witness :
    catStep widgetPrices
        (JValue.obj [("title", JValue.str "Widget"),
                     ("price", JValue.str "oops")])
      = widgetPrices
    ∧ build_price_dictionary
        [JValue.obj [("title", JValue.str "Widget"),
                     ("price", JValue.str "oops")]] "Widget"
      = none := by
  have h := C3_text_or_null_price_skipped
    [("title", JValue.str "Widget"), ("price", JValue.str "oops")]
    "Widget" rfl rfl
  exact ⟨h.1 widgetPrices, h.2⟩

/-- C4: a sale row with a string product whose quantity is missing or
fails `isinstance(quantity, int)` — in particular the numerically whole
float `5.0` — leaves the running total unchanged and contributes nothing
to `compute_total_sales`. -/
theorem C4_invalid_quantity_skipped (prices : String → Option ℚ)
    (total : ℚ) (fields : List (String × JValue)) (p : String)
    (hp : getField fields "Product" = some (.str p))
    (hq : pyIsInstInt (getField fields "Quantity") = false) :
    saleStep prices total (.obj fields) = total
    ∧ (∀ sales, compute_total_sales (.obj fields :: sales) prices
        = compute_total_sales sales prices)
    ∧ pyIsInstInt (some (.float 5)) = false := by
  refine ⟨by simp [saleStep, hp, hq], ?_, rfl⟩
  intro sales
  have h0 : saleStep prices 0 (JValue.obj fields) = 0 := by
    simp [saleStep, hp, hq]
  simp [compute_total_sales, List.foldl_cons, h0]

/-- Witness for C4: the float-quantity row `{"Product":"Widget",
"Quantity":5.0}` leaves a total of `7` unchanged and contributes nothing
on its own. -/
theorem C4_witness :
    saleStep widgetPrices 7 (JValue.obj floatQtyFields) = 7
    ∧ compute_total_sales [JValue.obj floatQtyFields] widgetPrices
        = compute_total_sales [] widgetPrices := by
  have h := C4_invalid_quantity_skipped widgetPrices 7 floatQtyFields
    "Widget" rfl rfl
  exact ⟨h.1, h.2.1 []⟩

/-- C5: `compute_total_sales` is a total function, and when no row of the
sales list is valid and matched — in particular on the empty list — it
returns exactly `0.0`. -/
theorem C5_no_valid_row_gives_zero (sales : List JValue)
    (prices : String → Option ℚ)
    (h : ∀ sale ∈ sales, rowIsValidMatched prices sale = false) :
    compute_total_sales sales prices = 0
    ∧ compute_total_sales [] prices = 0 := by
  have hsum : compute_total_sales sales prices
      = (sales.map (rowContribution prices)).sum := by
    simpa using foldl_saleStep_eq prices sales 0
  refine ⟨?_, rfl⟩
  rw [hsum]
  apply List.sum_eq_zero
  intro x hx
  rcases List.mem_map.1 hx with ⟨sale, hs, rfl⟩
  exact rowContribution_eq_zero prices sale (h sale hs)

/-- Witness for C5: a sales list made of a non-dict row and an unmatched
row totals `0`. -/
theorem C5_witness :
    compute_total_sales badSales widgetPrices = 0 := by
  refine (C5_no_valid_row_gives_zero badSales widgetPrices ?_).1
  intro sale hs
  simp only [badSales, List.mem_cons, List.not_mem_nil, or_false] at hs
  rcases hs with rfl | rfl
  · rfl
  · simp [rowIsValidMatched, getField, pyIsInstInt, widgetPrices]

/-- C6: `compute_total_sales` is deterministic — equal sales lists and
equal price mappings give equal totals; the result depends on nothing
else. -/
theorem C6_deterministic (sales₁ sales₂ : List JValue)
    (prices₁ prices₂ : String → Option ℚ)
    (hs : sales₁ = sales₂) (hp : prices₁ = prices₂) :
    compute_total_sales sales₁ prices₁ = compute_total_sales sales₂ prices₂ := by
  rw [hs, hp]

/-- Witness for C6: two runs on the example inputs agree. -/
theorem C6_witness :
    compute_total_sales exampleSales widgetPrices
      = compute_total_sales exampleSales widgetPrices :=
  C6_deterministic exampleSales exampleSales widgetPrices widgetPrices
    rfl rfl

/-- The spec's fatal conditions are exactly the runs of `main` that end
in `fatalExit`. -/
lemma main_run_fatal_iff (args : List String) (fs : String → FileContent) :
    fatalCondition args fs ↔ ∃ d, main_run args fs = .fatalExit d := by
  rcases args with _ | ⟨a, _ | ⟨b, _ | ⟨c, _ | ⟨e, rest⟩⟩⟩⟩
  · exact ⟨fun _ => ⟨_, rfl⟩, fun _ => Or.inl (by simp)⟩
  · exact ⟨fun _ => ⟨_, rfl⟩, fun _ => Or.inl (by simp)⟩
  · exact ⟨fun _ => ⟨_, rfl⟩, fun _ => Or.inl (by simp)⟩
  · constructor
    · rintro (h3 | ⟨prog, cf, sf, heq, hbad⟩)
      · exact absurd rfl h3
      · obtain ⟨rfl, rfl, rfl⟩ : a = prog ∧ b = cf ∧ c = sf := by
          injection heq with h1 h2
          injection h2 with h2 h3
          injection h3 with h3 _
          exact ⟨h1, h2, h3⟩
        rcases hbad with hm | hi | ⟨v, hv, hnl⟩ | hm2 | hi2 | ⟨w, hw, hnl2⟩
        · simp [main_run, load_json_file, hm]
        · simp [main_run, load_json_file, hi]
        · rcases hsf : fs c with _ | _ | w
          · simp [main_run, load_json_file, hv, hsf]
          · simp [main_run, load_json_file, hv, hsf]
          · cases v <;> simp_all [main_run, load_json_file, isListV]
        · rcases hcf : fs b with _ | _ | v
          · simp [main_run, load_json_file, hcf]
          · simp [main_run, load_json_file, hcf]
          · simp [main_run, load_json_file, hcf, hm2]
        · rcases hcf : fs b with _ | _ | v
          · simp [main_run, load_json_file, hcf]
          · simp [main_run, load_json_file, hcf]
          · simp [main_run, load_json_file, hcf, hi2]
        · rcases hcf : fs b with _ | _ | v
          · simp [main_run, load_json_file, hcf]
          · simp [main_run, load_json_file, hcf]
          · cases v <;> cases w <;>
              simp_all [main_run, load_json_file, isListV]
    · rintro ⟨d, hd⟩
      refine Or.inr ⟨a, b, c, rfl, ?_⟩
      rcases hcf : fs b with _ | _ | v
      · exact Or.inl rfl
      · exact Or.inr (Or.inl rfl)
      · rcases hsf : fs c with _ | _ | w
        · exact Or.inr (Or.inr (Or.inr (Or.inl rfl)))
        · exact Or.inr (Or.inr (Or.inr (Or.inr (Or.inl rfl))))
        · by_cases hv : isListV v = true
          · by_cases hw : isListV w = true
            · rcases v with _ | _ | _ | _ | _ | catItems | _ <;>
                simp [isListV] at hv
              rcases w with _ | _ | _ | _ | _ | saleItems | _ <;>
                simp [isListV] at hw
              simp [main_run, load_json_file, hcf, hsf] at hd
            · exact Or.inr (Or.inr (Or.inr (Or.inr (Or.inr
                ⟨w, rfl, by simpa using hw⟩))))
          · exact Or.inr (Or.inr (Or.inl ⟨v, rfl, by simpa using hv⟩))
  · exact ⟨fun _ => ⟨_, rfl⟩, fun _ => Or.inl (by simp)⟩

/-- C7: every fatal condition — wrong argument count, a missing input
file, invalid JSON, or a non-list top-level value — exits with code 1
after exactly one diagnostic and without writing the report, and
`save_results` is reached only when no fatal condition occurred. -/
theorem C7_fatal_conditions (args : List String) (fs : String → FileContent) :
    (fatalCondition args fs →
       exitCode (main_run args fs) = 1
       ∧ (fatalDiagnostics (main_run args fs)).length = 1
       ∧ reportSaved (main_run args fs) = false)
    ∧ (reportSaved (main_run args fs) = true → ¬ fatalCondition args fs) := by
  constructor
  · intro h
    rcases (main_run_fatal_iff args fs).1 h with ⟨d, hd⟩
    simp [hd, exitCode, fatalDiagnostics, reportSaved]
  · intro h hf
    rcases (main_run_fatal_iff args fs).1 hf with ⟨d, hd⟩
    rw [hd] at h
    simp [reportSaved] at h

/-- Witness for C7: a one-argument invocation on an empty file system is
fatal with one diagnostic and no report, and a well-formed run on two
empty JSON lists is not a fatal condition. -/
theorem C7_witness :
    (exitCode (main_run ["prog"] emptyFS) = 1
     ∧ (fatalDiagnostics (main_run ["prog"] emptyFS)).length = 1
     ∧ reportSaved (main_run ["prog"] emptyFS) = false)
    ∧ ¬ fatalCondition ["prog", "cat.json", "sales.json"] goodFS := by
  constructor
  · exact (C7_fatal_conditions ["prog"] emptyFS).1 (Or.inl (by simp))
  · exact (C7_fatal_conditions ["prog", "cat.json", "sales.json"] goodFS).2 rfl

/-- Counterexample to C8: the running total is not monotone — on the
valid, matched row `{"Product":"Widget","Quantity":-1}` with `Widget`
priced at `2.5`, the total strictly decreases (the code accepts negative
integer quantities). -/
theorem C8_counterexample :
    rowIsValidMatched widgetPrices negQtySale = true
    ∧ saleStep widgetPrices 0 negQtySale < 0 := by
  constructor
  · simp [rowIsValidMatched, negQtySale, getField, pyIsInstInt, widgetPrices]
  · have h : saleStep widgetPrices 0 negQtySale = -(5 / 2) := by
      simp [saleStep, negQtySale, getField, pyIsInstInt, pyIntQ, widgetPrices]
    rw [h]
    norm_num

/-- C8 (amended): each processed row changes the running total by exactly
its contribution `unit_price * quantity` (zero for skipped rows), and the
total is non-decreasing across a row whenever that contribution is
non-negative — not unconditionally, since valid negative quantities
decrease it. -/
theorem C8_total_change_per_row (prices : String → Option ℚ) (total : ℚ)
    (sale : JValue) (h : 0 ≤ rowContribution prices sale) :
    saleStep prices total sale = total + rowContribution prices sale
    ∧ total ≤ saleStep prices total sale := by
  refine ⟨saleStep_eq prices total sale, ?_⟩
  rw [saleStep_eq]
  linarith

/-- Witness for the amended C8: a quantity-`4` `Widget` row adds its
contribution and does not decrease a total of `1`. -/
theorem C8_witness :
    saleStep widgetPrices 1 posQtySale
      = 1 + rowContribution widgetPrices posQtySale
    ∧ (1 : ℚ) ≤ saleStep widgetPrices 1 posQtySale := by
  apply C8_total_change_per_row
  have h : rowContribution widgetPrices posQtySale = 10 := by
    simp [rowContribution, posQtySale, getField, pyIsInstInt, pyIntQ,
      widgetPrices]
    norm_num
  rw [h]
  norm_num

/-- C9: boolean quantities and boolean prices pass the integer and
numeric checks — a sale row with `Quantity` `true` (resp. `false`) on a
catalogued product adds `unit_price * 1` (resp. `* 0`) to the total, and a
catalogue entry with a boolean price enters the mapping as `1.0` or
`0.0`. -/
theorem C9_bool_passes_checks (prices : String → Option ℚ) (total up : ℚ)
    (p t : String) (b : Bool) (hp : prices p = some up) :
    saleStep prices total
        (.obj [("Product", .str p), ("Quantity", .bool b)])
      = total + up * (if b then 1 else 0)
    ∧ rowIsValidMatched prices
        (.obj [("Product", .str p), ("Quantity", .bool b)]) = true
    ∧ build_price_dictionary [.obj [("title", .str t), ("price", .bool b)]] t
      = some (if b then 1 else 0) := by
  refine ⟨?_, ?_, ?_⟩
  · simp [saleStep, getField, pyIsInstInt, pyIntQ, hp]
  · simp [rowIsValidMatched, getField, pyIsInstInt, hp]
  · cases b <;>
      simp [build_price_dictionary, catStep, getField, pyIsInstNum, pyFloatQ]

/-- Witness for C9: quantity `true` on `Widget` adds `2.5 * 1`, and the
boolean price `true` for `B` enters the mapping. -/
theorem C9_witness :
    saleStep widgetPrices 0
        (JValue.obj [("Product", JValue.str "Widget"),
                     ("Quantity", JValue.bool true)])
      = 0 + (5 / 2) * (if true then 1 else 0)
    ∧ rowIsValidMatched widgetPrices
        (JValue.obj [("Product", JValue.str "Widget"),
                     ("Quantity", JValue.bool true)]) = true
    ∧ build_price_dictionary
        [JValue.obj [("title", JValue.str "B"),
                     ("price", JValue.bool true)]] "B"
      = some (if true then 1 else 0) := by
  apply C9_bool_passes_checks widgetPrices 0 (5 / 2) "Widget" "B" true
  simp [widgetPrices]

/-- C10: a skipped catalogue entry leaves the price mapping unchanged —
the fold step is the identity on the whole mapping, so a later
invalid-price duplicate never removes or alters an existing key and the
earlier valid entry's price is retained. -/
theorem C10_skip_preserves_mapping (prices : String → Option ℚ)
    (item : JValue) (h : isValidEntry item = false) :
    catStep prices item = prices
    ∧ ∀ (c : List JValue) (t : String) (q : ℚ),
        build_price_dictionary c t = some q →
        build_price_dictionary (c ++ [item]) t = some q := by
  refine ⟨catStep_skip prices item h, ?_⟩
  intro c t q hq
  have hsplit : build_price_dictionary (c ++ [item])
      = catStep (build_price_dictionary c) item := by
    simp [build_price_dictionary, List.foldl_append]
  rw [hsplit, catStep_skip _ _ h, hq]

/-- Witness for C10: appending the text-priced `Widget` entry to the
duplicate catalogue keeps the mapping (identically) and keeps `Widget`
at the price `2` stored by the last valid entry. -/
theorem C10_witness :
    catStep widgetPrices badDupItem = widgetPrices
    ∧ build_price_dictionary (dupCatalogue ++ [badDupItem]) "Widget"
        = some 2 := by
  have h := C10_skip_preserves_mapping widgetPrices badDupItem rfl
  refine ⟨h.1, h.2 dupCatalogue "Widget" 2 ?_⟩
  simp [dupCatalogue, build_price_dictionary, catStep, getField,
    pyIsInstNum, pyFloatQ]
